import Mathlib

/-!
A shallow embedding of `src/network_speedtest.py` (the measurement
orchestration logic: server selection, throughput trials, packet-loss and
latency statistics), together with theorems settling the specification
claims against it.

The ambient network is modelled by call-indexed oracles (`Env`): the n-th
call of each effectful primitive (catalog query, DNS resolution, latency
probe, download attempt, upload attempt) reads the n-th entry of the
corresponding stream.  Each embedded function threads the position of the
streams it consumes, so the number of calls a phase makes is visible as the
difference of positions.  Measured quantities (seconds, Mbps, bytes) are
modelled as exact rationals.
-/

namespace NetworkSpeedtest

/-- A server record as returned by the catalog capability: the dict with
host, name, country and latency fields read at lines 111 and 116-118. -/
structure Candidate where
  host : String
  name : String
  country : String
  latency : Rat
deriving DecidableEq, Repr

/-- Result of one st.get_best_server() call (line 107): the call can raise
an exception (caught at line 126), or return a value whose truthiness is
tested at line 108; `returns none` models a falsy return (no servers). -/
inductive CatalogReply where
  | raises
  | returns (c : Option Candidate)
deriving DecidableEq, Repr

/-- The ambient network, as call-indexed oracles.  `initOk` is whether
speedtest.Speedtest() (configuration retrieval, line 98) succeeds.
`resolve n h` is the n-th resolve_host_ip call (none = socket.gaierror,
line 76).  `ping n a` is the n-th ping3.ping call (none = timeout or
unreachable).  `download n` / `upload n` are the n-th provider attempts:
`some (s, b)` is the raw pair of st.download() / st.upload() and the bytes
counter; `none` models a speedtest.SpeedtestException (line 90). -/
structure Env where
  initOk : Bool
  catalog : Nat → CatalogReply
  resolve : Nat → String → Option String
  ping : Nat → String → Option Rat
  download : Nat → Option (Rat × Rat)
  upload : Nat → Option (Rat × Rat)

/-- Line 111: best_server['host'].split(':')[0] — everything before the
first colon. -/
def stripPort (h : String) : String :=
  String.mk (h.data.takeWhile fun ch => ch != ':')

/-- Lines 10-15 (calculate_packet_loss): ping the address `count` times,
packet loss percentage = lost/count*100.  With `count = 0` the source
raises ZeroDivisionError at line 14 (after issuing zero probes), modelled
as `.error ()`.  The second component is the advanced ping-stream
position: the number of probes issued is its difference from `idx`. -/
def calculate_packet_loss (env : Env) (host_ip : String) (idx count : Nat) :
    Except Unit Rat × Nat :=
  let responses := (List.range count).map fun j => env.ping (idx + j) host_ip
  let lost_packets := responses.count none
  if count = 0 then (.error (), idx + count)
  else (.ok (((lost_packets : Rat) / (count : Rat)) * 100), idx + count)

/-- The four-field result of calculate_ping_statistics: either all four
fields are the 'N/A' sentinel (line 29) or all four are numbers
(line 36). -/
inductive PingStats where
  | na
  | stats (low high avg jitter : Rat)
deriving DecidableEq, Repr

/-- Lines 17-36 (calculate_ping_statistics): probe `count` times, keep the
non-None responses, convert to milliseconds, and return (min, max, mean,
max - min); all four fields are 'N/A' when nothing succeeded.  The second
component is the advanced ping-stream position. -/
def calculate_ping_statistics (env : Env) (host_ip : String) (idx count : Nat) :
    PingStats × Nat :=
  let responses := (List.range count).map fun j => env.ping (idx + j) host_ip
  let pings := responses.filterMap id
  match pings with
  | [] => (.na, idx + count)
  | p :: rest =>
    let h := p * 1000
    let t := rest.map fun x => x * 1000
    let low := t.foldl min h
    let high := t.foldl max h
    let avg := (h :: t).sum / ((h :: t).length : Rat)
    (.stats low high avg (high - low), idx + count)

/-- Lines 79-93 (perform_speedtest_with_retries): up to `retries` provider
attempts; the first attempt that does not raise returns
(value/1e6, bytes/1e6); exhausting the budget returns none (the
(None, None) pair of line 93).  `idx` is the attempt-stream position. -/
def perform_speedtest_with_retries (oracle : Nat → Option (Rat × Rat)) :
    Nat → Nat → Option (Rat × Rat) × Nat
  | idx, 0 => (none, idx)
  | idx, n + 1 =>
    match oracle idx with
    | some (speed, data_used) =>
      (some (speed / 1000000, data_used / 1000000), idx + 1)
    | none => perform_speedtest_with_retries oracle (idx + 1) n

/-- The running totals of the testing loop (lines 133-137). -/
structure Totals where
  total_download_speed : Rat
  total_upload_speed : Rat
  total_download_data : Rat
  total_upload_data : Rat
  successful_tests : Nat
deriving DecidableEq, Repr

/-- Python truthiness of `x and y` for the pair returned by
perform_speedtest_with_retries: None is falsy and so is 0.0, so the test
at line 142 (and line 151) passes only for a present pair with nonzero
speed and nonzero data. -/
def truthyPair : Option (Rat × Rat) → Bool
  | none => false
  | some (s, d) => decide (s ≠ 0 ∧ d ≠ 0)

/-- One iteration of the testing loop (lines 140-156): run the download
attempt with retries; if its pair is truthy, accumulate it, run the upload
attempt with retries, accumulate a truthy upload pair, and count the test
as successful; otherwise `continue` (the upload is not attempted).
Returns (totals, download-stream position, upload-stream position). -/
def runOneTrial (env : Env) (retries : Nat) (t : Totals) (idl iul : Nat) :
    Totals × Nat × Nat :=
  let d := perform_speedtest_with_retries env.download idl retries
  match d.1 with
  | some (ds, dd) =>
    if ds ≠ 0 ∧ dd ≠ 0 then
      let t₁ := { t with total_download_speed := t.total_download_speed + ds,
                         total_download_data := t.total_download_data + dd }
      let u := perform_speedtest_with_retries env.upload iul retries
      let t₂ :=
        match u.1 with
        | some (us, ud) =>
          if us ≠ 0 ∧ ud ≠ 0 then
            { t₁ with total_upload_speed := t₁.total_upload_speed + us,
                      total_upload_data := t₁.total_upload_data + ud }
          else t₁
        | none => t₁
      ({ t₂ with successful_tests := t₂.successful_tests + 1 }, d.2, u.2)
    else (t, d.2, iul)
  | none => (t, d.2, iul)

/-- Lines 139-156: the for-loop over num_tests iterations (last argument,
structurally consumed). -/
def runTrialsLoop (env : Env) (retries : Nat) :
    Totals → Nat → Nat → Nat → Totals × Nat × Nat
  | t, idl, iul, 0 => (t, idl, iul)
  | t, idl, iul, n + 1 =>
    match runOneTrial env retries t idl iul with
    | (t₂, idl₂, iul₂) => runTrialsLoop env retries t₂ idl₂ iul₂ n

/-- The local variables of perform_speedtest written by the
server-selection loop (lines 103-127).  `best_server = none` models a
falsy value (the initial None of line 103, or a falsy get_best_server
return).  `server_ip = some v` means the Python variable has been
assigned, with value `v` (inner none = resolution failed); the outer
`none` means the variable was never assigned. -/
structure SelVars where
  best_server : Option Candidate
  server_host : Option String
  server_ip : Option (Option String)
deriving DecidableEq, Repr

/-- Result of the selection loop: the final variables plus the advanced
positions of the catalog, resolve and ping streams. -/
structure SelOut where
  vars : SelVars
  ic : Nat
  ir : Nat
  ip : Nat
deriving DecidableEq, Repr

/-- Lines 103-127: up to ping_retries iterations (last argument); each
iteration queries the catalog (an exception is caught at line 126 and the
loop continues), tests truthiness, strips the port, resolves the host,
pings the resolved address once, and breaks on the first ping reply that
is not None (line 121 tests `is None`, not truthiness).  Assignments
persist across iterations exactly as Python locals do: a falsy
get_best_server return overwrites best_server, while a raised exception
leaves every variable as it was. -/
def selectLoop (env : Env) : SelVars → Nat → Nat → Nat → Nat → SelOut
  | v, ic, ir, ipg, 0 => ⟨v, ic, ir, ipg⟩
  | v, ic, ir, ipg, n + 1 =>
    match env.catalog ic with
    | .raises => selectLoop env v (ic + 1) ir ipg n
    | .returns none =>
      selectLoop env { v with best_server := none } (ic + 1) ir ipg n
    | .returns (some c) =>
      let host := stripPort c.host
      match env.resolve ir host with
      | none => selectLoop env ⟨some c, some host, some none⟩ (ic + 1) (ir + 1) ipg n
      | some addr =>
        match env.ping ipg addr with
        | none =>
          selectLoop env ⟨some c, some host, some (some addr)⟩ (ic + 1) (ir + 1) (ipg + 1) n
        | some _ => ⟨⟨some c, some host, some (some addr)⟩, ic + 1, ir + 1, ipg + 1⟩

/-- Truthiness of a ping reply as used by `any(...)` at line 168: None is
falsy and so is a 0.0 round-trip time (contrast line 121, which only
tests `is None`). -/
def truthyPing : Option Rat → Bool
  | none => false
  | some r => decide (r ≠ 0)

/-- Line 168: any(ping(server_ip) for _ in range(ping_retries)) — the
generator is consumed lazily, stopping at the first truthy reply. -/
def anyPingLoop (env : Env) (addr : String) : Nat → Nat → Bool × Nat
  | ipg, 0 => (false, ipg)
  | ipg, n + 1 =>
    if truthyPing (env.ping ipg addr) then (true, ipg + 1)
    else anyPingLoop env addr (ipg + 1) n

/-- Lines 167-169: if server_ip is None, or no probe out of ping_retries
gets a truthy reply, substitute resolve_host_ip("google.com") for
server_ip.  Returns (whether the fallback branch was taken, the resulting
server_ip value, advanced ping position, advanced resolve position). -/
def fallbackDecision (env : Env) (ping_retries : Nat) (pyIp : Option String)
    (ipg irg : Nat) : Bool × Option String × Nat × Nat :=
  match pyIp with
  | none => (true, env.resolve irg ("google.com"), ipg, irg + 1)
  | some addr =>
    let a := anyPingLoop env addr ipg ping_retries
    if a.1 then (false, some addr, a.2, irg)
    else (true, env.resolve irg ("google.com"), a.2, irg + 1)

/-- How many calls a run made to each capability: catalog queries, DNS
resolutions, latency probes, download attempts, upload attempts. -/
structure Counters where
  cat : Nat
  res : Nat
  png : Nat
  dl : Nat
  ul : Nat
deriving DecidableEq, Repr

/-- The data a completed run has assembled by line 174 (the excluded
reporting/logging glue of lines 176-236 consumes it): which address the
latency statistics were collected against, whether lines 168-169
substituted the google.com fallback for it, the per-test averages, and
the latency figures. -/
structure RunResult where
  server_host : Option String
  selection_ip : Option String
  latency_ip : String
  usedGoogleFallback : Bool
  avg_download_speed : Rat
  avg_upload_speed : Rat
  avg_download_data : Rat
  avg_upload_data : Rat
  successful_tests : Nat
  packet_loss : Rat
  idle_stats : PingStats
  download_ping_stats : PingStats
  upload_ping_stats : PingStats
deriving DecidableEq, Repr

/-- Where a run of perform_speedtest ends.  `configFailure` = lines
97-101 (Speedtest() raised, the function returns).  `noServer` = lines
129-131 (best_server falsy after the loop, the function returns).
`allTestsFailed` = lines 158-160 (successful_tests == 0, the function
returns before any latency collection).  `unboundLocal` = line 168 would
raise NameError (server_ip never assigned; unreachable when best_server
is truthy).  `fallbackUnresolved` = line 169 produced None and the ping
inside calculate_packet_loss at line 171 then raises on a None address.
`zeroDivision` = line 14 would raise (unreachable here: count is 4). -/
inductive Outcome where
  | configFailure
  | noServer
  | allTestsFailed
  | unboundLocal
  | fallbackUnresolved
  | zeroDivision
  | done (r : RunResult)
deriving DecidableEq, Repr

/-- Lines 95-174 of perform_speedtest: configuration retrieval, the
server-selection loop, the testing loop, the early return when no test
succeeded, the lines-168-169 fallback decision, and latency collection
(packet loss at line 171, then three calculate_ping_statistics calls at
lines 172-174, all against the same final server_ip).  Returns the
outcome together with the number of calls made to each capability. -/
def perform_speedtest (env : Env) (num_tests retries ping_retries : Nat) :
    Outcome × Counters :=
  if env.initOk = false then (.configFailure, ⟨0, 0, 0, 0, 0⟩) else
  let s := selectLoop env ⟨none, none, none⟩ 0 0 0 ping_retries
  match s.vars.best_server with
  | none => (.noServer, ⟨s.ic, s.ir, s.ip, 0, 0⟩)
  | some _ =>
    let tr := runTrialsLoop env retries ⟨0, 0, 0, 0, 0⟩ 0 0 num_tests
    if tr.1.successful_tests = 0 then
      (.allTestsFailed, ⟨s.ic, s.ir, s.ip, tr.2.1, tr.2.2⟩) else
    match s.vars.server_ip with
    | none => (.unboundLocal, ⟨s.ic, s.ir, s.ip, tr.2.1, tr.2.2⟩)
    | some pyIp =>
      let fb := fallbackDecision env ping_retries pyIp s.ip s.ir
      match fb.2.1 with
      | none => (.fallbackUnresolved, ⟨s.ic, fb.2.2.2, fb.2.2.1, tr.2.1, tr.2.2⟩)
      | some latIp =>
        let pls := calculate_packet_loss env latIp fb.2.2.1 4
        match pls.1 with
        | .error _ => (.zeroDivision, ⟨s.ic, fb.2.2.2, pls.2, tr.2.1, tr.2.2⟩)
        | .ok pl =>
          let st₁ := calculate_ping_statistics env latIp pls.2 4
          let st₂ := calculate_ping_statistics env latIp st₁.2 4
          let st₃ := calculate_ping_statistics env latIp st₂.2 4
          (.done {
            server_host := s.vars.server_host
            selection_ip := pyIp
            latency_ip := latIp
            usedGoogleFallback := fb.1
            avg_download_speed := tr.1.total_download_speed / (tr.1.successful_tests : Rat)
            avg_upload_speed := tr.1.total_upload_speed / (tr.1.successful_tests : Rat)
            avg_download_data := tr.1.total_download_data / (tr.1.successful_tests : Rat)
            avg_upload_data := tr.1.total_upload_data / (tr.1.successful_tests : Rat)
            successful_tests := tr.1.successful_tests
            packet_loss := pl
            idle_stats := st₁.1
            download_ping_stats := st₂.1
            upload_ping_stats := st₃.1 },
           ⟨s.ic, fb.2.2.2, st₃.2, tr.2.1, tr.2.2⟩)

/-- A candidate whose host carries a port suffix, as speedtest.net hosts
do. -/
def cand1 : Candidate :=
  ⟨"srv1.example.com:8080", "Springfield", "US", 12⟩

/-- Everything works: the first candidate resolves and answers its probe,
all provider attempts succeed with nonzero figures. -/
def envHappy : Env where
  initOk := true
  catalog := fun _ => .returns (some cand1)
  resolve := fun _ h => if h = "google.com" then some ("8.8.8.8") else some ("198.51.100.7")
  ping := fun _ _ => some 10
  download := fun _ => some (50000000, 62500000)
  upload := fun _ => some (10000000, 12500000)

/-- Selection succeeds on the first probe, but every later ping fails, so
the line-168 re-probe cannot reach the selected address; provider
attempts all succeed. -/
def envReprobeFail : Env where
  initOk := true
  catalog := fun _ => .returns (some cand1)
  resolve := fun _ h => if h = "google.com" then some ("8.8.8.8") else some ("198.51.100.7")
  ping := fun i _ => if i = 0 then some 10 else none
  download := fun _ => some (50000000, 62500000)
  upload := fun _ => some (10000000, 12500000)

/-- A catalog with no servers at all: every get_best_server call returns
a falsy value. -/
def envNoServers : Env where
  initOk := true
  catalog := fun _ => .returns none
  resolve := fun _ _ => some ("8.8.8.8")
  ping := fun _ _ => some 10
  download := fun _ => some (1000000, 1000000)
  upload := fun _ => some (1000000, 1000000)

/-- Selection succeeds immediately, but every download attempt raises. -/
def envAllDownloadsFail : Env where
  initOk := true
  catalog := fun _ => .returns (some cand1)
  resolve := fun _ _ => some ("198.51.100.7")
  ping := fun _ _ => some 10
  download := fun _ => none
  upload := fun _ => some (1000000, 1000000)

/-- The first download attempt succeeds but measures exactly 0.0 Mbps. -/
def envZeroDownload : Env where
  initOk := true
  catalog := fun _ => .returns (some cand1)
  resolve := fun _ _ => some ("198.51.100.7")
  ping := fun _ _ => some 10
  download := fun _ => some (0, 5000000)
  upload := fun _ => some (1000000, 1000000)

/-- The catalog offers the same candidate on every call; it resolves but
never answers a ping. -/
def envUnreachable : Env where
  initOk := true
  catalog := fun _ => .returns (some cand1)
  resolve := fun _ h => if h = "google.com" then some ("8.8.4.4") else some ("203.0.113.9")
  ping := fun _ _ => none
  download := fun _ => some (50000000, 62500000)
  upload := fun _ => some (10000000, 12500000)

/-- The first get_best_server call raises; the second returns a reachable
candidate. -/
def envCatalogBlip : Env where
  initOk := true
  catalog := fun i => if i = 0 then .raises else .returns (some cand1)
  resolve := fun _ _ => some ("198.51.100.7")
  ping := fun _ _ => some 10
  download := fun _ => some (50000000, 62500000)
  upload := fun _ => some (10000000, 12500000)

/-- Configuration retrieval itself fails: speedtest.Speedtest() raises. -/
def envInitFail : Env where
  initOk := false
  catalog := fun _ => .returns none
  resolve := fun _ _ => none
  ping := fun _ _ => none
  download := fun _ => none
  upload := fun _ => none

/-- Two latency probes succeed with distinct round-trip times (30 s then
10 s), exercising the statistics reduction. -/
def envPing2 : Env where
  initOk := true
  catalog := fun _ => .returns none
  resolve := fun _ _ => none
  ping := fun i _ => if i = 0 then some 30 else some 10
  download := fun _ => none
  upload := fun _ => none

/-- One probe out of four times out (the probe at stream position 1). -/
def envPingMixed : Env where
  initOk := true
  catalog := fun _ => .returns none
  resolve := fun _ _ => none
  ping := fun i _ => if i = 1 then none else some 10
  download := fun _ => none
  upload := fun _ => none

/-- A left fold of `min` over a list belongs to the initial value consed
onto the list. -/
theorem foldl_min_mem (t : List Rat) : ∀ h : Rat, t.foldl min h ∈ h :: t := by
  induction t with
  | nil => intro h; simp
  | cons a t ih =>
    intro h
    rw [List.foldl_cons]
    rcases List.mem_cons.mp (ih (min h a)) with h3 | h3
    · rcases min_choice h a with hm | hm
      · rw [h3, hm]; exact List.mem_cons_self _ _
      · rw [h3, hm]; exact List.mem_cons_of_mem _ (List.mem_cons_self _ _)
    · exact List.mem_cons_of_mem _ (List.mem_cons_of_mem _ h3)

/-- A left fold of `min` is a lower bound of the initial value and the
list elements. -/
theorem foldl_min_le (t : List Rat) : ∀ h x : Rat, x ∈ h :: t → t.foldl min h ≤ x := by
  induction t with
  | nil =>
    intro h x hx
    rw [List.mem_singleton] at hx
    subst hx
    exact le_refl x
  | cons a t ih =>
    intro h x hx
    rw [List.foldl_cons]
    rcases List.mem_cons.mp hx with h1 | h1
    · rw [h1]
      exact le_trans (ih (min h a) (min h a) (List.mem_cons_self _ _)) (min_le_left _ _)
    · rcases List.mem_cons.mp h1 with h2 | h2
      · rw [h2]
        exact le_trans (ih (min h a) (min h a) (List.mem_cons_self _ _)) (min_le_right _ _)
      · exact ih (min h a) x (List.mem_cons_of_mem _ h2)

/-- A left fold of `max` over a list belongs to the initial value consed
onto the list. -/
theorem foldl_max_mem (t : List Rat) : ∀ h : Rat, t.foldl max h ∈ h :: t := by
  induction t with
  | nil => intro h; simp
  | cons a t ih =>
    intro h
    rw [List.foldl_cons]
    rcases List.mem_cons.mp (ih (max h a)) with h3 | h3
    · rcases max_choice h a with hm | hm
      · rw [h3, hm]; exact List.mem_cons_self _ _
      · rw [h3, hm]; exact List.mem_cons_of_mem _ (List.mem_cons_self _ _)
    · exact List.mem_cons_of_mem _ (List.mem_cons_of_mem _ h3)

/-- A left fold of `max` is an upper bound of the initial value and the
list elements. -/
theorem foldl_le_max (t : List Rat) : ∀ h x : Rat, x ∈ h :: t → x ≤ t.foldl max h := by
  induction t with
  | nil =>
    intro h x hx
    rw [List.mem_singleton] at hx
    subst hx
    exact le_refl x
  | cons a t ih =>
    intro h x hx
    rw [List.foldl_cons]
    rcases List.mem_cons.mp hx with h1 | h1
    · rw [h1]
      exact le_trans (le_max_left _ _) (ih (max h a) (max h a) (List.mem_cons_self _ _))
    · rcases List.mem_cons.mp h1 with h2 | h2
      · rw [h2]
        exact le_trans (le_max_right _ _) (ih (max h a) (max h a) (List.mem_cons_self _ _))
      · exact ih (max h a) x (List.mem_cons_of_mem _ h2)

/-- C8: calculate_ping_statistics returns the all-N/A marker exactly when
no probe in the sample succeeded, and for a sample with at least one
successful probe it returns, over the successful round-trip times
converted to milliseconds, the minimum, the maximum, the mean, and a
jitter equal to maximum minus minimum. -/
theorem c8_confirmed (env : Env) (addr : String) (idx count : Nat) :
    ((((List.range count).map fun j => env.ping (idx + j) addr).filterMap id) = [] →
      (calculate_ping_statistics env addr idx count).1 = .na) ∧
    (∀ p rest,
      (((List.range count).map fun j => env.ping (idx + j) addr).filterMap id) = p :: rest →
      ∃ low high avg,
        (calculate_ping_statistics env addr idx count).1 =
          .stats low high avg (high - low) ∧
        low ∈ (p :: rest).map (fun x => x * 1000) ∧
        (∀ x ∈ (p :: rest).map (fun x => x * 1000), low ≤ x) ∧
        high ∈ (p :: rest).map (fun x => x * 1000) ∧
        (∀ x ∈ (p :: rest).map (fun x => x * 1000), x ≤ high) ∧
        avg = ((p :: rest).map (fun x => x * 1000)).sum /
          ((((p :: rest).map (fun x => x * 1000)).length : Nat) : Rat)) := by
  constructor
  · intro hE
    simp only [calculate_ping_statistics]
    rw [hE]
  · intro p rest hE
    simp only [calculate_ping_statistics]
    rw [hE]
    refine ⟨_, _, _, rfl, ?_, ?_, ?_, ?_, ?_⟩
    · rw [List.map_cons]
      exact foldl_min_mem _ _
    · rw [List.map_cons]
      exact foldl_min_le _ _
    · rw [List.map_cons]
      exact foldl_max_mem _ _
    · rw [List.map_cons]
      exact foldl_le_max _ _
    · rw [List.map_cons]

unseal Rat.mul Rat.add Rat.inv Rat.sub in
/-- C8 witness: a concrete sample with two successful probes of 30 s and
10 s, evaluated through the theorem. -/
theorem c8_witness :
    ∃ low high avg,
      (calculate_ping_statistics envPing2 ("a") 0 2).1 =
        .stats low high avg (high - low) ∧
      low ∈ ((30 : Rat) :: [10]).map (fun x => x * 1000) ∧
      (∀ x ∈ ((30 : Rat) :: [10]).map (fun x => x * 1000), low ≤ x) ∧
      high ∈ ((30 : Rat) :: [10]).map (fun x => x * 1000) ∧
      (∀ x ∈ ((30 : Rat) :: [10]).map (fun x => x * 1000), x ≤ high) ∧
      avg = (((30 : Rat) :: [10]).map (fun x => x * 1000)).sum /
        (((((30 : Rat) :: [10]).map (fun x => x * 1000)).length : Nat) : Rat) :=
  (c8_confirmed envPing2 ("a") 0 2).2 30 [10] (by decide)

/-- C9: for every sampleCount at least 1, calculate_packet_loss consumes
exactly sampleCount entries of the probe stream and returns exactly
100 times the number of absent probe replies divided by sampleCount,
a value always within the interval from 0 to 100. -/
theorem c9_confirmed (env : Env) (addr : String) (idx count : Nat) (h : 1 ≤ count) :
    (((List.range count).map fun j => env.ping (idx + j) addr).length = count) ∧
    ∃ v : Rat,
      calculate_packet_loss env addr idx count = (.ok v, idx + count) ∧
      v = (((((List.range count).map fun j => env.ping (idx + j) addr).count none : Nat) : Rat) /
            ((count : Nat) : Rat)) * 100 ∧
      0 ≤ v ∧ v ≤ 100 := by
  have hlen : (((List.range count).map fun j => env.ping (idx + j) addr)).length = count := by
    simp
  refine ⟨hlen, ?_⟩
  have hc0 : ¬ count = 0 := by omega
  have hcount : (((List.range count).map fun j => env.ping (idx + j) addr).count none) ≤ count := by
    calc ((List.range count).map fun j => env.ping (idx + j) addr).count none
        ≤ (((List.range count).map fun j => env.ping (idx + j) addr)).length :=
          List.count_le_length _ _
      _ = count := hlen
  have hcpos : (0 : Rat) < ((count : Nat) : Rat) := by
    exact_mod_cast Nat.pos_of_ne_zero hc0
  refine ⟨_, ?_, rfl, ?_, ?_⟩
  · simp only [calculate_packet_loss]
    rw [if_neg hc0]
  · positivity
  · have h1 : ((((List.range count).map fun j => env.ping (idx + j) addr).count none : Nat) : Rat) ≤
        ((count : Nat) : Rat) := by exact_mod_cast hcount
    have h2 : ((((List.range count).map fun j => env.ping (idx + j) addr).count none : Nat) : Rat) /
        ((count : Nat) : Rat) ≤ 1 := (div_le_one hcpos).mpr h1
    calc ((((List.range count).map fun j => env.ping (idx + j) addr).count none : Nat) : Rat) /
          ((count : Nat) : Rat) * 100 ≤ 1 * 100 := by
          exact mul_le_mul_of_nonneg_right h2 (by norm_num)
      _ = 100 := by norm_num

unseal Rat.mul Rat.add Rat.inv Rat.sub in
/-- C9 witness: four probes of which exactly one is absent give a packet
loss of 25 percent, evaluated through the theorem. -/
theorem c9_witness :
    (((List.range 4).map fun j => envPingMixed.ping (0 + j) ("a")).length = 4) ∧
    ∃ v : Rat,
      calculate_packet_loss envPingMixed ("a") 0 4 = (.ok v, 0 + 4) ∧
      v = (((((List.range 4).map fun j => envPingMixed.ping (0 + j) ("a")).count none : Nat) : Rat) /
            ((4 : Nat) : Rat)) * 100 ∧
      0 ≤ v ∧ v ≤ 100 :=
  c9_confirmed envPingMixed ("a") 0 4 (by decide)

/-- C10: because lines 142 and 151 test truthiness rather than absence, a
throughput attempt that succeeds with a 0.0 figure is handled exactly like
a failed attempt: a download pair containing a zero skips the upload and
leaves the totals and success count unchanged, exactly as an absent
download does, while a zero-containing upload pair is not accumulated even
though the iteration still counts as successful. -/
theorem c10_confirmed (env : Env) (retries : Nat) (t : Totals) (idl iul : Nat) :
    (∀ idl₂, perform_speedtest_with_retries env.download idl retries = (none, idl₂) →
      runOneTrial env retries t idl iul = (t, idl₂, iul)) ∧
    (∀ ds dd idl₂,
      perform_speedtest_with_retries env.download idl retries = (some (ds, dd), idl₂) →
      (ds = 0 ∨ dd = 0) →
      runOneTrial env retries t idl iul = (t, idl₂, iul)) ∧
    (∀ ds dd idl₂ us ud iul₂,
      perform_speedtest_with_retries env.download idl retries = (some (ds, dd), idl₂) →
      ds ≠ 0 → dd ≠ 0 →
      perform_speedtest_with_retries env.upload iul retries = (some (us, ud), iul₂) →
      (us = 0 ∨ ud = 0) →
      runOneTrial env retries t idl iul =
        ({ t with total_download_speed := t.total_download_speed + ds,
                  total_download_data := t.total_download_data + dd,
                  successful_tests := t.successful_tests + 1 }, idl₂, iul₂)) := by
  refine ⟨?_, ?_, ?_⟩
  · intro idl₂ hd
    simp only [runOneTrial]
    rw [hd]
  · intro ds dd idl₂ hd h0
    simp only [runOneTrial]
    rw [hd]
    have : ¬ (ds ≠ 0 ∧ dd ≠ 0) := by tauto
    simp only [this, if_false]
  · intro ds dd idl₂ us ud iul₂ hd hds hdd hu h0
    simp only [runOneTrial]
    rw [hd]
    have h1 : ds ≠ 0 ∧ dd ≠ 0 := ⟨hds, hdd⟩
    rw [hu]
    have h2 : ¬ (us ≠ 0 ∧ ud ≠ 0) := by tauto
    simp only [h2, if_false]
    rw [if_pos h1]

unseal Rat.mul Rat.add Rat.inv Rat.sub in
/-- C10 witness: a download attempt that succeeds with 0.0 Mbps leaves
the iteration uncounted and the upload unattempted, evaluated through the
theorem. -/
theorem c10_witness :
    runOneTrial envZeroDownload 1 ⟨0, 0, 0, 0, 0⟩ 0 0 = (⟨0, 0, 0, 0, 0⟩, 1, 0) :=
  (c10_confirmed envZeroDownload 1 ⟨0, 0, 0, 0, 0⟩ 0 0).2.1 0 5 1 (by decide) (Or.inl rfl)

/-- The fallback decision of lines 168-169 keeps the selection-phase
server_ip exactly when it does not take the fallback branch; when it
takes the branch, the resulting value is the resolution of google.com at
the current resolve-stream position. -/
theorem fallbackDecision_address (env : Env) (pr : Nat) (pyIp : Option String)
    (ipg irg : Nat) :
    ((fallbackDecision env pr pyIp ipg irg).1 = false →
      (fallbackDecision env pr pyIp ipg irg).2.1 = pyIp) ∧
    ((fallbackDecision env pr pyIp ipg irg).1 = true →
      (fallbackDecision env pr pyIp ipg irg).2.1 = env.resolve irg ("google.com")) := by
  cases pyIp with
  | none => simp [fallbackDecision]
  | some addr =>
    simp only [fallbackDecision]
    by_cases ha : (anyPingLoop env addr ipg pr).1
    · simp [ha]
    · simp [ha]

/-- The selection loop makes at most as many catalog queries as it has
iterations. -/
theorem selectLoop_ic_le (env : Env) :
    ∀ (n : Nat) (v : SelVars) (ic ir ipg : Nat),
      (selectLoop env v ic ir ipg n).ic ≤ ic + n := by
  intro n
  induction n with
  | zero => intro v ic ir ipg; simp [selectLoop]
  | succ k ih =>
    intro v ic ir ipg
    simp only [selectLoop]
    cases hc : env.catalog ic with
    | raises =>
      dsimp only
      have h := ih v (ic + 1) ir ipg
      omega
    | returns oc =>
      cases oc with
      | none =>
        dsimp only
        have h := ih { v with best_server := none } (ic + 1) ir ipg
        omega
      | some c =>
        dsimp only
        cases hr : env.resolve ir (stripPort c.host) with
        | none =>
          dsimp only
          have h := ih ⟨some c, some (stripPort c.host), some none⟩ (ic + 1) (ir + 1) ipg
          omega
        | some addr =>
          dsimp only
          cases hp : env.ping ipg addr with
          | none =>
            dsimp only
            have h := ih ⟨some c, some (stripPort c.host), some (some addr)⟩ (ic + 1) (ir + 1)
              (ipg + 1)
            omega
          | some rt =>
            show ic + 1 ≤ ic + (k + 1)
            omega

unseal Rat.mul Rat.add Rat.inv Rat.sub in
/-- C1 counterexample: against envReprobeFail, server selection succeeds
and resolves 198.51.100.7, the throughput trials run, and yet the latency
statistics are collected against 8.8.8.8 — the fallback address is
substituted by the post-trial re-probe of lines 168-169 even though
server selection did not fail, so the fallback decision is not made once
at selection time. -/
theorem c1_counterexample :
    perform_speedtest envReprobeFail 1 1 1 =
      (.done { server_host := some ("srv1.example.com"),
               selection_ip := some ("198.51.100.7"),
               latency_ip := "8.8.8.8",
               usedGoogleFallback := true,
               avg_download_speed := 50,
               avg_upload_speed := 10,
               avg_download_data := 125 / 2,
               avg_upload_data := 25 / 2,
               successful_tests := 1,
               packet_loss := 100,
               idle_stats := .na,
               download_ping_stats := .na,
               upload_ping_stats := .na }, ⟨1, 2, 18, 1, 1⟩) ∧
    ¬ ("8.8.8.8" = "198.51.100.7") := by
  exact ⟨by decide, by decide⟩

/-- C1 (amended): the address latency statistics are collected against is
decided only after the trials, by lines 168-169: when the fallback branch
was not taken it is the selection-phase resolved address, and when the
branch was taken (because that address was absent or failed a fresh
re-probe of up to ping_retries pings) it is whatever google.com resolved
to at that moment — a second, independent fallback decision. -/
theorem c1_amended (env : Env) (num_tests retries ping_retries : Nat)
    (r : RunResult) (c : Counters)
    (h : perform_speedtest env num_tests retries ping_retries = (.done r, c)) :
    (r.usedGoogleFallback = false → r.selection_ip = some r.latency_ip) ∧
    (r.usedGoogleFallback = true →
      ∃ i, env.resolve i ("google.com") = some r.latency_ip) := by
  simp only [perform_speedtest] at h
  by_cases hinit : env.initOk = false
  · rw [if_pos hinit] at h
    simp at h
  · rw [if_neg hinit] at h
    cases hb : (selectLoop env ⟨none, none, none⟩ 0 0 0 ping_retries).vars.best_server with
    | none => simp only [hb] at h; simp at h
    | some cd =>
      simp only [hb] at h
      by_cases hsucc :
          (runTrialsLoop env retries ⟨0, 0, 0, 0, 0⟩ 0 0 num_tests).1.successful_tests = 0
      · rw [if_pos hsucc] at h; simp at h
      · rw [if_neg hsucc] at h
        cases hip : (selectLoop env ⟨none, none, none⟩ 0 0 0 ping_retries).vars.server_ip with
        | none => simp only [hip] at h; simp at h
        | some pyIp =>
          simp only [hip] at h
          cases hfb : (fallbackDecision env ping_retries pyIp
              (selectLoop env ⟨none, none, none⟩ 0 0 0 ping_retries).ip
              (selectLoop env ⟨none, none, none⟩ 0 0 0 ping_retries).ir).2.1 with
          | none => simp only [hfb] at h; simp at h
          | some latIp =>
            simp only [hfb] at h
            cases hpl : (calculate_packet_loss env latIp
                (fallbackDecision env ping_retries pyIp
                  (selectLoop env ⟨none, none, none⟩ 0 0 0 ping_retries).ip
                  (selectLoop env ⟨none, none, none⟩ 0 0 0 ping_retries).ir).2.2.1 4).1 with
            | error e => simp only [hpl] at h; simp at h
            | ok pl =>
              simp only [hpl] at h
              rw [Prod.mk.injEq] at h
              obtain ⟨hdone, -⟩ := h
              rw [Outcome.done.injEq] at hdone
              subst hdone
              constructor
              · intro hfalse
                have hfd := (fallbackDecision_address env ping_retries pyIp
                    (selectLoop env ⟨none, none, none⟩ 0 0 0 ping_retries).ip
                    (selectLoop env ⟨none, none, none⟩ 0 0 0 ping_retries).ir).1 hfalse
                rw [hfb] at hfd
                exact hfd.symm
              · intro htrue
                have hfd := (fallbackDecision_address env ping_retries pyIp
                    (selectLoop env ⟨none, none, none⟩ 0 0 0 ping_retries).ip
                    (selectLoop env ⟨none, none, none⟩ 0 0 0 ping_retries).ir).2 htrue
                rw [hfb] at hfd
                exact ⟨(selectLoop env ⟨none, none, none⟩ 0 0 0 ping_retries).ir, hfd.symm⟩

/-- The RunResult assembled by a run against envHappy with one test, one
retry and one selection attempt. -/
def happyResult : RunResult where
  server_host := some ("srv1.example.com")
  selection_ip := some ("198.51.100.7")
  latency_ip := "198.51.100.7"
  usedGoogleFallback := false
  avg_download_speed := 50
  avg_upload_speed := 10
  avg_download_data := 125 / 2
  avg_upload_data := 25 / 2
  successful_tests := 1
  packet_loss := 0
  idle_stats := .stats 10000 10000 10000 0
  download_ping_stats := .stats 10000 10000 10000 0
  upload_ping_stats := .stats 10000 10000 10000 0

unseal Rat.mul Rat.add Rat.inv Rat.sub in
/-- C1 witness: a run that does not take the fallback branch collects its
latency statistics against the selection-phase address, evaluated through
the theorem. -/
theorem c1_witness : happyResult.selection_ip = some happyResult.latency_ip :=
  (c1_amended envHappy 1 1 1 happyResult ⟨1, 1, 18, 1, 1⟩ (by decide)).1 rfl

/-- C2 counterexample: against a catalog that never produces a candidate,
selection exhausts its three-query budget and the run simply aborts with
the no-server outcome — the selector never resolves the fallback hostname
(zero resolve calls) and returns no address at all, instead of returning
the fallback address with usedFallback set. -/
theorem c2_counterexample :
    perform_speedtest envNoServers 1 1 3 = (.noServer, ⟨3, 0, 0, 0, 0⟩) := by
  decide

/-- C2 (amended): selection makes at most ping_retries catalog queries,
and when the loop ends with a falsy best_server the run aborts with the
no-server outcome: no fallback hostname is resolved at selection time and
no address is returned — the fixed fallback (google.com) only enters at
the post-trial latency phase of lines 168-169. -/
theorem c2_amended (env : Env) (num_tests retries ping_retries : Nat) :
    (selectLoop env ⟨none, none, none⟩ 0 0 0 ping_retries).ic ≤ ping_retries ∧
    (env.initOk = true →
      (selectLoop env ⟨none, none, none⟩ 0 0 0 ping_retries).vars.best_server = none →
      (perform_speedtest env num_tests retries ping_retries).1 = .noServer) := by
  constructor
  · have h := selectLoop_ic_le env ping_retries ⟨none, none, none⟩ 0 0 0
    simpa using h
  · intro hinit hbs
    simp only [perform_speedtest]
    rw [if_neg (by simp [hinit])]
    rw [hbs]

/-- C2 witness: the no-server abort, evaluated through the theorem. -/
theorem c2_witness : (perform_speedtest envNoServers 2 1 3).1 = Outcome.noServer :=
  (c2_amended envNoServers 2 1 3).2 rfl (by decide)

/-- C3 counterexample: selection succeeds but every download fails, so
successful_tests is 0; the run then aborts at lines 158-160 with only the
single selection-phase ping ever issued — no latency statistics are
attempted and no result is produced. -/
theorem c3_counterexample :
    perform_speedtest envAllDownloadsFail 2 3 3 = (.allTestsFailed, ⟨1, 1, 1, 6, 0⟩) := by
  decide

/-- C3 (amended): when every trial fails (successful_tests = 0) the run
aborts immediately after the trial loop: it returns the all-tests-failed
outcome, issues no further probes beyond those of the selection phase,
and produces no MeasurementResult — the latency-collection phase is never
reached. -/
theorem c3_amended (env : Env) (num_tests retries ping_retries : Nat)
    (hinit : env.initOk = true)
    (hbs : (selectLoop env ⟨none, none, none⟩ 0 0 0 ping_retries).vars.best_server ≠ none)
    (h0 : (runTrialsLoop env retries ⟨0, 0, 0, 0, 0⟩ 0 0 num_tests).1.successful_tests = 0) :
    perform_speedtest env num_tests retries ping_retries =
      (.allTestsFailed,
       ⟨(selectLoop env ⟨none, none, none⟩ 0 0 0 ping_retries).ic,
        (selectLoop env ⟨none, none, none⟩ 0 0 0 ping_retries).ir,
        (selectLoop env ⟨none, none, none⟩ 0 0 0 ping_retries).ip,
        (runTrialsLoop env retries ⟨0, 0, 0, 0, 0⟩ 0 0 num_tests).2.1,
        (runTrialsLoop env retries ⟨0, 0, 0, 0, 0⟩ 0 0 num_tests).2.2⟩) := by
  simp only [perform_speedtest]
  rw [if_neg (by simp [hinit])]
  cases hb : (selectLoop env ⟨none, none, none⟩ 0 0 0 ping_retries).vars.best_server with
  | none => exact absurd hb hbs
  | some cd => rw [if_pos h0]

unseal Rat.mul Rat.add Rat.inv Rat.sub in
/-- C3 witness: the all-tests-failed abort with the ping counter still at
the selection phase value, evaluated through the theorem. -/
theorem c3_witness :
    perform_speedtest envAllDownloadsFail 1 2 3 =
      (.allTestsFailed,
       ⟨(selectLoop envAllDownloadsFail ⟨none, none, none⟩ 0 0 0 3).ic,
        (selectLoop envAllDownloadsFail ⟨none, none, none⟩ 0 0 0 3).ir,
        (selectLoop envAllDownloadsFail ⟨none, none, none⟩ 0 0 0 3).ip,
        (runTrialsLoop envAllDownloadsFail 2 ⟨0, 0, 0, 0, 0⟩ 0 0 1).2.1,
        (runTrialsLoop envAllDownloadsFail 2 ⟨0, 0, 0, 0, 0⟩ 0 0 1).2.2⟩) :=
  c3_amended envAllDownloadsFail 1 2 3 rfl (by decide) (by decide)

unseal Rat.mul Rat.add Rat.inv Rat.sub in
/-- C4 counterexample: the download trial of the single iteration
succeeds — it returns a present pair (0 Mbps, 5 MB), not the absent
failure marker — and yet the upload trial is never attempted (the upload
stream stays at position 0) and the iteration is not counted as
successful. -/
theorem c4_counterexample :
    perform_speedtest_with_retries envZeroDownload.download 0 1 = (some (0, 5), 1) ∧
    runOneTrial envZeroDownload 1 ⟨0, 0, 0, 0, 0⟩ 0 0 = (⟨0, 0, 0, 0, 0⟩, 1, 0) := by
  exact ⟨by decide, by decide⟩

/-- C4 (amended): in every iteration the gate on the upload trial and on
counting the iteration is the truthiness of the download pair, not its
mere presence: when the download pair is absent or contains a zero, the
upload is not attempted and the totals are unchanged; when the download
pair is present with nonzero speed and data, the upload attempt loop runs
and the success count is incremented exactly once, regardless of the
upload outcome. -/
theorem c4_amended (env : Env) (retries : Nat) (t : Totals) (idl iul : Nat) :
    (truthyPair (perform_speedtest_with_retries env.download idl retries).1 = false →
      runOneTrial env retries t idl iul =
        (t, (perform_speedtest_with_retries env.download idl retries).2, iul)) ∧
    (truthyPair (perform_speedtest_with_retries env.download idl retries).1 = true →
      (runOneTrial env retries t idl iul).1.successful_tests = t.successful_tests + 1 ∧
      (runOneTrial env retries t idl iul).2.2 =
        (perform_speedtest_with_retries env.upload iul retries).2) := by
  constructor
  · intro hf
    cases hd : (perform_speedtest_with_retries env.download idl retries).1 with
    | none => simp only [runOneTrial, hd]
    | some pair =>
      obtain ⟨ds, dd⟩ := pair
      rw [hd] at hf
      have hnot : ¬ (ds ≠ 0 ∧ dd ≠ 0) := by simpa [truthyPair] using hf
      simp only [runOneTrial, hd]
      rw [if_neg hnot]
  · intro hf
    cases hd : (perform_speedtest_with_retries env.download idl retries).1 with
    | none => rw [hd] at hf; simp [truthyPair] at hf
    | some pair =>
      obtain ⟨ds, dd⟩ := pair
      rw [hd] at hf
      have hyes : ds ≠ 0 ∧ dd ≠ 0 := by simpa [truthyPair] using hf
      simp only [runOneTrial, hd]
      rw [if_pos hyes]
      cases hu : (perform_speedtest_with_retries env.upload iul retries).1 with
      | none => exact ⟨rfl, rfl⟩
      | some upair =>
        obtain ⟨us, ud⟩ := upair
        dsimp only
        by_cases h2 : us ≠ 0 ∧ ud ≠ 0
        · rw [if_pos h2]
          exact ⟨rfl, rfl⟩
        · rw [if_neg h2]
          exact ⟨rfl, rfl⟩

unseal Rat.mul Rat.add Rat.inv Rat.sub in
/-- C4 witness: with a truthy download the iteration is counted once and
the upload attempt loop runs, evaluated through the theorem. -/
theorem c4_witness :
    (runOneTrial envHappy 3 ⟨0, 0, 0, 0, 0⟩ 0 0).1.successful_tests =
      (⟨0, 0, 0, 0, 0⟩ : Totals).successful_tests + 1 ∧
    (runOneTrial envHappy 3 ⟨0, 0, 0, 0, 0⟩ 0 0).2.2 =
      (perform_speedtest_with_retries envHappy.upload 0 3).2 :=
  (c4_amended envHappy 3 ⟨0, 0, 0, 0, 0⟩ 0 0).2 (by decide)

/-- C5 counterexample: the catalog returns the identical candidate on
both iterations, the candidate is rejected by its failed probe on the
first iteration, and the second iteration nevertheless performs a fresh
DNS resolution and a fresh probe (two resolve calls and two ping calls,
not one of each): no rejected-hostname set exists. -/
theorem c5_counterexample :
    selectLoop envUnreachable ⟨none, none, none⟩ 0 0 0 2 =
      ⟨⟨some cand1, some ("srv1.example.com"), some (some ("203.0.113.9"))⟩, 2, 2, 2⟩ ∧
    ¬ ((selectLoop envUnreachable ⟨none, none, none⟩ 0 0 0 2).ir = 1) := by
  exact ⟨by decide, by decide⟩

/-- C5 (amended): the selection loop keeps no memory of rejected
hostnames: when the catalog returns the same candidate on every query,
whose host resolves but whose probe always fails, every one of the n
iterations performs one catalog query, one DNS resolution and one probe —
repeated candidates are re-resolved and re-probed, each iteration
consuming one unit of the retry budget. -/
theorem c5_amended (env : Env) (c : Candidate) (addr : String)
    (hcat : ∀ i, env.catalog i = .returns (some c))
    (hres : ∀ i, env.resolve i (stripPort c.host) = some addr)
    (hping : ∀ i, env.ping i addr = none) :
    ∀ (n : Nat) (v : SelVars) (ic ir ipg : Nat),
      (selectLoop env v ic ir ipg n).ic = ic + n ∧
      (selectLoop env v ic ir ipg n).ir = ir + n ∧
      (selectLoop env v ic ir ipg n).ip = ipg + n := by
  intro n
  induction n with
  | zero => intro v ic ir ipg; simp [selectLoop]
  | succ k ih =>
    intro v ic ir ipg
    simp only [selectLoop, hcat, hres, hping]
    have h := ih ⟨some c, some (stripPort c.host), some (some addr)⟩ (ic + 1) (ir + 1) (ipg + 1)
    refine ⟨?_, ?_, ?_⟩
    · rw [h.1]; omega
    · rw [h.2.1]; omega
    · rw [h.2.2]; omega

/-- C5 witness: two iterations over the same unreachable candidate make
two catalog queries, two resolutions and two probes, evaluated through
the theorem. -/
theorem c5_witness :
    (selectLoop envUnreachable ⟨none, none, none⟩ 0 0 0 3).ic = 0 + 3 ∧
    (selectLoop envUnreachable ⟨none, none, none⟩ 0 0 0 3).ir = 0 + 3 ∧
    (selectLoop envUnreachable ⟨none, none, none⟩ 0 0 0 3).ip = 0 + 3 :=
  c5_amended envUnreachable cand1 ("203.0.113.9") (fun _ => rfl) (fun _ => rfl) (fun _ => rfl)
    3 ⟨none, none, none⟩ 0 0 0

/-- C6 counterexample: the first catalog query raises (the capability
failed to return a candidate), yet selection neither aborts nor surfaces
a failure: the loop catches the exception, retries, and the second query
succeeds, so the catalog error was retried within the per-candidate
selection loop. -/
theorem c6_counterexample :
    envCatalogBlip.catalog 0 = .raises ∧
    selectLoop envCatalogBlip ⟨none, none, none⟩ 0 0 0 2 =
      ⟨⟨some cand1, some ("srv1.example.com"), some (some ("198.51.100.7"))⟩, 2, 1, 1⟩ := by
  exact ⟨by decide, by decide⟩

/-- C6 (amended): only a failure of configuration retrieval (the
speedtest.Speedtest() constructor) aborts the run immediately as a hard
failure, before any catalog query, resolution, probe or trial; an
exception raised by a catalog query inside the selection loop is caught
and retried, consuming one unit of the retry budget. -/
theorem c6_amended (env : Env) (num_tests retries ping_retries : Nat)
    (v : SelVars) (ic ir ipg n : Nat) :
    (env.initOk = false →
      perform_speedtest env num_tests retries ping_retries =
        (.configFailure, ⟨0, 0, 0, 0, 0⟩)) ∧
    (env.catalog ic = .raises →
      selectLoop env v ic ir ipg (n + 1) = selectLoop env v (ic + 1) ir ipg n) := by
  constructor
  · intro hinit
    simp only [perform_speedtest]
    rw [if_pos hinit]
  · intro hc
    simp only [selectLoop]
    rw [hc]

/-- C6 witness: the configuration-retrieval failure aborts with zero
activity, and an in-loop catalog exception consumes one retry, both
evaluated through the theorem. -/
theorem c6_witness :
    perform_speedtest envInitFail 1 1 1 = (Outcome.configFailure, ⟨0, 0, 0, 0, 0⟩) ∧
    selectLoop envCatalogBlip ⟨none, none, none⟩ 0 0 0 2 =
      selectLoop envCatalogBlip ⟨none, none, none⟩ 1 0 0 1 :=
  ⟨(c6_amended envInitFail 1 1 1 ⟨none, none, none⟩ 0 0 0 1).1 rfl,
   (c6_amended envCatalogBlip 1 1 1 ⟨none, none, none⟩ 0 0 0 1).2 (by decide)⟩

unseal Rat.mul Rat.add Rat.inv Rat.sub in
/-- C7 counterexample: a zero trial count is not rejected: the run
against a working network performs one catalog query, one DNS resolution
and one probe (network activity) before ending in the all-tests-failed
abort — there is no configuration-error rejection before network
activity. -/
theorem c7_counterexample :
    perform_speedtest envHappy 0 3 3 = (.allTestsFailed, ⟨1, 1, 1, 0, 0⟩) ∧
    ¬ ((perform_speedtest envHappy 0 3 3).2.cat = 0) := by
  exact ⟨by decide, by decide⟩

/-- C7 (amended): the code performs no configuration validation at all:
with a zero trial count the run still proceeds through configuration
retrieval and server selection and can only end in one of the three
aborts (configuration-retrieval failure, no server, or all tests failed —
never a completed result and never a configuration error), and
calculate_packet_loss with a zero sample count issues no probes and fails
with a division-by-zero error rather than a configuration error. -/
theorem c7_amended (env : Env) (retries ping_retries idx : Nat) (addr : String) :
    ((perform_speedtest env 0 retries ping_retries).1 = .configFailure ∨
     (perform_speedtest env 0 retries ping_retries).1 = .noServer ∨
     (perform_speedtest env 0 retries ping_retries).1 = .allTestsFailed) ∧
    calculate_packet_loss env addr idx 0 = (.error (), idx + 0) := by
  constructor
  · by_cases hinit : env.initOk = false
    · left
      simp only [perform_speedtest]
      rw [if_pos hinit]
    · simp only [perform_speedtest]
      rw [if_neg hinit]
      cases hb : (selectLoop env ⟨none, none, none⟩ 0 0 0 ping_retries).vars.best_server with
      | none => right; left; rfl
      | some cd =>
        right; right
        rw [if_pos
          (show (runTrialsLoop env retries ⟨0, 0, 0, 0, 0⟩ 0 0 0).1.successful_tests = 0 from rfl)]
  · simp [calculate_packet_loss]

end NetworkSpeedtest
